import Mathlib

/-
Verification of the mediaCRM valuation and transaction-assessment engines.

The definitions below are a shallow embedding of the decision logic of
`pricing_calculator.py` (class `PricingCalculator`) and
`financial_calculator.py` (class `FinancialCalculator`).

Modelling conventions:
* Currency amounts, rates and ratios are rationals (`ℚ`); the Python code
  uses floats, and every threshold comparison in the source is robust to
  that difference at the inputs considered here.
* Database rows reached through SQL lookups/joins become explicit record
  structures, and the SQLite database becomes a `Db` record of association
  lists keyed by the integer row id.  `JOIN brands` is modelled by storing
  the joined `brand_name`/`reputation_score` columns on the inventory row.
* Optional SQL columns (`market_value`, `expiry_date`, `commission_rate`)
  become `Option` fields.  Python truthiness tests on optional floats
  (`if price_info['xianyu_price']:`) are modelled by `qTruthy`, which is
  false for `none` and for `some 0`, exactly as in Python.
* Expiry dates are modelled by the number of days between the expiry date
  and `datetime.now()` (`days_until_expiry`), the only quantity the source
  derives from the date.
* The source formats some output fields with `round(x, 2)` / `round(x, 4)`
  before putting them in the result dictionary; that is display rounding
  and the model computes the exact values instead.  Timestamp columns
  (`updated_at`) are outside the model.
* On the proposed-sale-price path `calculate_transaction_profit` computes
  `realization_rate = total_revenue / original_value` with no guard, so an
  item with original value 0 makes the Python method raise
  `ZeroDivisionError`; the model surfaces that exception as an explicit
  `Except.error` value, and `transactionFound` (the successful remainder)
  divides only by a non-zero original value, where Lean's division agrees
  with Python's.
-/

namespace MediaCRM

/-- Python truthiness of an optional float: `None` and `0.0` are falsy. -/
def qTruthy : Option ℚ → Bool
  | none => false
  | some x => decide (x ≠ 0)

/-- Value of an optional float under `x or 0` / truthy extraction. -/
def qOrZero : Option ℚ → ℚ
  | none => 0
  | some x => x

/-- Whether the first character list is an initial segment of the second. -/
def charListPre : List Char → List Char → Bool
  | [], _ => true
  | _ :: _, [] => false
  | a :: as, b :: bs => a == b && charListPre as bs

/-- Whether the first character list occurs contiguously in the second
(Python's `key in product_name` on strings). -/
def charListSub (key : List Char) : List Char → Bool
  | [] => charListPre key []
  | b :: bs => charListPre key (b :: bs) || charListSub key bs

/-- Python's substring test `key in s`. -/
def strContainsSub (key s : String) : Bool :=
  charListSub key.data s.data

/-!  ## Price Source Adapter (`pricing_calculator.py`, mock tables)  -/

/-- The mock 拼多多 price table of `search_pdd_price`, in source order. -/
def mock_pdd_prices : List (String × ℚ) :=
  [("可口可乐", 35.9), ("元气森林", 45.8), ("蓝月亮洗衣液", 29.9),
   ("康师傅方便面", 12.5), ("三只松鼠坚果", 89.0), ("维达纸巾", 22.9),
   ("小米充电宝", 59.0), ("美的电饭煲", 199.0)]

/-- The mock 闲鱼 price table of `search_xianyu_price`, in source order. -/
def mock_xianyu_prices : List (String × ℚ) :=
  [("可口可乐", 28.0), ("元气森林", 38.0), ("蓝月亮洗衣液", 25.0),
   ("康师傅方便面", 10.0), ("三只松鼠坚果", 75.0), ("维达纸巾", 18.0),
   ("小米充电宝", 45.0), ("美的电饭煲", 150.0)]

/-- Fuzzy lookup: the price of the first table key contained in the product
name (the `for key, price in ...: if key in product_name` loop). -/
def searchTable (product_name : String) : List (String × ℚ) → Option ℚ
  | [] => none
  | (key, price) :: rest =>
      if strContainsSub key product_name then some price
      else searchTable product_name rest

/-- `PricingCalculator.search_pdd_price`. -/
def search_pdd_price (product_name : String) : Option ℚ :=
  searchTable product_name mock_pdd_prices

/-- `PricingCalculator.search_xianyu_price`. -/
def search_xianyu_price (product_name : String) : Option ℚ :=
  searchTable product_name mock_xianyu_prices

/-- The dictionary returned by `PricingCalculator.get_market_price_range`. -/
structure PriceInfo where
  pdd_price : Option ℚ
  xianyu_price : Option ℚ
  recommended_price : Option ℚ
deriving DecidableEq

/-- `PricingCalculator.get_market_price_range`. -/
def get_market_price_range (product_name : String) : PriceInfo :=
  let pdd_price := search_pdd_price product_name
  let xianyu_price := search_xianyu_price product_name
  let recommended_price :=
    if qTruthy xianyu_price then some (qOrZero xianyu_price * 0.6)
    else if qTruthy pdd_price then some (qOrZero pdd_price * 0.5)
    else none
  ⟨pdd_price, xianyu_price, recommended_price⟩

/-!  ## Data model (database rows as seen by the engines)  -/

/-- An inventory row joined with its brand
(`SELECT i.*, b.brand_name, b.reputation_score FROM inventory i JOIN brands b`).
`days_until_expiry` is `(expiry_date - datetime.now()).days` when the
`expiry_date` column is set. -/
structure InventoryRow where
  product_name : String
  category : String
  quantity : ℕ
  original_value : ℚ
  market_value : Option ℚ
  days_until_expiry : Option ℤ
  brand_name : String
  reputation_score : ℤ
deriving DecidableEq

/-- A `media_resources` row (only the columns the engines read). -/
structure MediaResource where
  media_name : String
  actual_cost : ℚ
deriving DecidableEq

/-- A `sales_channels` row (only the columns the engines read). -/
structure SalesChannel where
  channel_name : String
  channel_type : String
  commission_rate : Option ℚ
deriving DecidableEq

/-- The SQLite database: association lists keyed by row id. -/
structure Db where
  inventory : List (ℕ × InventoryRow)
  media_resources : List (ℕ × MediaResource)
  sales_channels : List (ℕ × SalesChannel)
deriving DecidableEq

/-- `SELECT ... WHERE id = ?`: first row with the given id. -/
def lookupById {α : Type} : List (ℕ × α) → ℕ → Option α
  | [], _ => none
  | (i, row) :: rest, key => if i = key then some row else lookupById rest key

/-- `UPDATE inventory SET market_value = ? WHERE id = ?`. -/
def setMarketValue : List (ℕ × InventoryRow) → ℕ → ℚ → List (ℕ × InventoryRow)
  | [], _, _ => []
  | (i, row) :: rest, key, mv =>
      if i = key then (i, { row with market_value := some mv }) :: setMarketValue rest key mv
      else (i, row) :: setMarketValue rest key mv

/-- The database after `UPDATE inventory SET market_value = ?`. -/
def writeBackMarketValue (db : Db) (key : ℕ) (mv : ℚ) : Db :=
  { db with inventory := setMarketValue db.inventory key mv }

/-!  ## Realization Valuation Engine (`PricingCalculator`)  -/

/-- `PricingCalculator.assess_risk_level`: accumulated score from brand
reputation, expiry proximity and price stability, classified
`low`/`medium`/`high`. -/
def assess_risk_level (inv : InventoryRow) (price_info : PriceInfo) : String :=
  let s1 : ℕ :=
    if 8 ≤ inv.reputation_score then 1
    else if 6 ≤ inv.reputation_score then 2
    else 3
  let s2 : ℕ :=
    match inv.days_until_expiry with
    | none => 0
    | some d =>
        if 6 ≤ (d : ℚ) / 30 then 1
        else if 3 ≤ (d : ℚ) / 30 then 2
        else 5
  let s3 : ℕ :=
    if qTruthy price_info.pdd_price && qTruthy price_info.xianyu_price then
      let p := qOrZero price_info.pdd_price
      let x := qOrZero price_info.xianyu_price
      let price_diff_ratio := |p - x| / max p x
      if price_diff_ratio < 0.2 then 1
      else if price_diff_ratio < 0.4 then 2
      else 3
    else 3
  let risk_score := s1 + s2 + s3
  if risk_score ≤ 3 then "low"
  else if risk_score ≤ 6 then "medium"
  else "high"

/-- The dictionary returned by `PricingCalculator.calculate_realization_value`
on its success path. -/
structure ValuationResult where
  inventory_id : ℕ
  product_name : String
  original_value : ℚ
  market_value : ℚ
  realization_rate : ℚ
  recommended_sale_price : ℚ
  expected_cash_return : ℚ
  profit_margin : ℚ
  risk_level : String
  price_sources : PriceInfo
deriving DecidableEq

/-- Success path of `PricingCalculator.calculate_realization_value`, after the
inventory row has been fetched. -/
def valuateFound (inventory_id : ℕ) (inv : InventoryRow) : ValuationResult :=
  let price_info := get_market_price_range inv.product_name
  let original_value := inv.original_value
  let market_value :=
    if qTruthy price_info.xianyu_price then qOrZero price_info.xianyu_price
    else if qTruthy price_info.pdd_price then qOrZero price_info.pdd_price
    else original_value * 0.3
  let realization_value :=
    if qTruthy price_info.recommended_price then
      qOrZero price_info.recommended_price * (inv.quantity : ℚ)
    else original_value * 0.08
  let realization_rate :=
    if qTruthy price_info.recommended_price then realization_value / original_value
    else 0.08
  let recommended_sale_price :=
    if qTruthy price_info.recommended_price then qOrZero price_info.recommended_price
    else market_value * 0.6
  { inventory_id := inventory_id
    product_name := inv.product_name
    original_value := original_value
    market_value := market_value
    realization_rate := realization_rate
    recommended_sale_price := recommended_sale_price
    expected_cash_return := realization_value
    profit_margin := 0
    risk_level := assess_risk_level inv price_info
    price_sources := price_info }

/-- `PricingCalculator.calculate_realization_value` (the spec's `valuate`):
fetch the inventory row, compute the valuation, and write the computed
market value back onto the row.  A missing row yields the explicit error
dictionary and leaves the database untouched. -/
def calculate_realization_value (db : Db) (inventory_id : ℕ) :
    Except String ValuationResult × Db :=
  match lookupById db.inventory inventory_id with
  | none => (Except.error ("库存记录不存在，ID: " ++ toString inventory_id), db)
  | some inv =>
      let result := valuateFound inventory_id inv
      (Except.ok result,
       { db with inventory := setMarketValue db.inventory inventory_id result.market_value })

/-!  ## Financial parameters (`FinancialCalculator.financial_params`)  -/

/-- `financial_params['default_realization_rate']`. -/
def default_realization_rate : ℚ := 0.08

/-- `financial_params['min_realization_rate']`. -/
def min_realization_rate : ℚ := 0.05

/-- `financial_params['max_realization_rate']`. -/
def max_realization_rate : ℚ := 0.15

/-- `financial_params['min_profit_margin']`. -/
def min_profit_margin : ℚ := 0.2

/-- `financial_params['storage_cost_per_unit']`. -/
def storage_cost_per_unit : ℚ := 2.0

/-- `financial_params['logistics_cost_ratio']`. -/
def logistics_cost_ratio : ℚ := 0.02

/-!  ## Realization rate, costs, risk and feasibility (`FinancialCalculator`)  -/

/-- `FinancialCalculator.calculate_realization_rate`: the base 8% rate with
channel / brand / category / expiry multipliers, clamped to the configured
range. -/
def calculate_realization_rate (inv : InventoryRow) (chan : SalesChannel) : ℚ :=
  let base_rate := default_realization_rate
  let channel_multiplier : ℚ :=
    if chan.channel_type = "S级" then 1.2
    else if chan.channel_type = "A级" then 0.8
    else 1.0
  let brand_multiplier : ℚ :=
    if 8 ≤ inv.reputation_score then 1.1
    else if 6 ≤ inv.reputation_score then 1.0
    else 0.7
  let category_multiplier : ℚ :=
    if inv.category = "饮料" then 1.0
    else if inv.category = "日化" then 0.9
    else if inv.category = "家电" then 0.6
    else if inv.category = "食品" then 1.1
    else if inv.category = "其他" then 0.8
    else 0.8
  let expiry_multiplier : ℚ :=
    match inv.days_until_expiry with
    | none => 1.0
    | some d =>
        if (d : ℚ) / 30 < 1 then 0.5
        else if (d : ℚ) / 30 < 3 then 0.8
        else if (d : ℚ) / 30 < 6 then 0.9
        else 1.0
  let adjusted_rate := base_rate * channel_multiplier * brand_multiplier *
    category_multiplier * expiry_multiplier
  max min_realization_rate (min max_realization_rate adjusted_rate)

/-- The dictionary returned by `FinancialCalculator.calculate_cost_breakdown`. -/
structure CostBreakdown where
  advertising_cost : ℚ
  channel_commission : ℚ
  storage_cost : ℚ
  logistics_cost : ℚ
  operational_cost : ℚ
deriving DecidableEq

/-- `sum(cost_breakdown.values())`. -/
def CostBreakdown.total (cb : CostBreakdown) : ℚ :=
  cb.advertising_cost + cb.channel_commission + cb.storage_cost +
    cb.logistics_cost + cb.operational_cost

/-- `FinancialCalculator.calculate_cost_breakdown`.  The commission rate is
read with `channel.get('commission_rate') or 0`. -/
def calculate_cost_breakdown (ad_cost revenue : ℚ) (quantity : ℕ)
    (chan : SalesChannel) : CostBreakdown :=
  let commission_rate := qOrZero chan.commission_rate / 100
  { advertising_cost := ad_cost
    channel_commission := revenue * commission_rate
    storage_cost := (quantity : ℚ) * storage_cost_per_unit
    logistics_cost := revenue * logistics_cost_ratio
    operational_cost := revenue * 0.01 }

/-- The dictionary returned by `FinancialCalculator.assess_transaction_risk`. -/
structure RiskAssessment where
  risk_score : ℕ
  risk_level : String
  risk_color : String
  risk_factors : List String
deriving DecidableEq

/-- `FinancialCalculator.assess_transaction_risk`: additive risk score over
realization rate, profit margin, brand reputation, expiry proximity and
channel tier, classified into three levels.  (`ad_resource` is a parameter
of the source method but is not read by it.) -/
def assess_transaction_risk (inv : InventoryRow) (ad_resource : MediaResource)
    (chan : SalesChannel) (realization_rate profit_margin : ℚ) : RiskAssessment :=
  let s1 : ℕ :=
    if realization_rate < 0.06 then 3
    else if realization_rate < 0.08 then 1
    else 0
  let f1 : List String :=
    if realization_rate < 0.06 then ["变现率过低，可能无法达到预期收益"]
    else if realization_rate < 0.08 then ["变现率偏低，需要谨慎评估"]
    else []
  let s2 : ℕ :=
    if profit_margin < 0.15 then 3
    else if profit_margin < 0.25 then 1
    else 0
  let f2 : List String :=
    if profit_margin < 0.15 then ["利润率过低，抗风险能力弱"]
    else if profit_margin < 0.25 then ["利润率一般，需要控制成本"]
    else []
  let s3 : ℕ := if inv.reputation_score < 6 then 2 else 0
  let f3 : List String :=
    if inv.reputation_score < 6 then ["品牌知名度低，销售困难"] else []
  let s4 : ℕ :=
    match inv.days_until_expiry with
    | none => 0
    | some d => if d < 30 then 4 else if d < 90 then 2 else 0
  let f4 : List String :=
    match inv.days_until_expiry with
    | none => []
    | some d =>
        if d < 30 then ["商品即将过期，时间风险极高"]
        else if d < 90 then ["商品临近保质期，需要快速处理"]
        else []
  let s5 : ℕ :=
    if chan.channel_type ∈ (["S级", "A级"] : List String) then 0 else 2
  let f5 : List String :=
    if chan.channel_type ∈ (["S级", "A级"] : List String) then []
    else ["未认证渠道，回款风险较高"]
  let risk_score := s1 + s2 + s3 + s4 + s5
  let risk_level :=
    if 8 ≤ risk_score then "高风险"
    else if 4 ≤ risk_score then "中等风险"
    else "低风险"
  let risk_color :=
    if 8 ≤ risk_score then "red"
    else if 4 ≤ risk_score then "yellow"
    else "green"
  { risk_score := risk_score
    risk_level := risk_level
    risk_color := risk_color
    risk_factors := f1 ++ f2 ++ f3 ++ f4 ++ f5 }

/-- `FinancialCalculator.assess_transaction_feasibility`: hard vetoes on
realization rate, profit margin and ROI, then the high-risk gate. -/
def assess_transaction_feasibility (realization_rate profit_margin roi : ℚ)
    (risk_assessment : RiskAssessment) : Bool :=
  if realization_rate < min_realization_rate then false
  else if profit_margin < min_profit_margin then false
  else if roi < 0.5 then false
  else if risk_assessment.risk_level = "高风险" then
    decide (profit_margin > 0.3 ∧ roi > 1.0)
  else true

/-- `FinancialCalculator.generate_recommendations`. -/
def generate_recommendations (feasibility : Bool) (realization_rate profit_margin : ℚ)
    (risk_assessment : RiskAssessment) : List String :=
  if feasibility then
    ["✅ 交易可行，建议推进"]
    ++ (if realization_rate < 0.08 then ["⚠️  变现率偏低，考虑寻找更优质渠道"] else [])
    ++ (if profit_margin < 0.25 then ["⚠️  利润率一般，需要严格控制成本"] else [])
    ++ (if risk_assessment.risk_level = "中等风险" ∨ risk_assessment.risk_level = "高风险" then
          ["⚠️  存在风险因素，需要制定风险应对方案"]
        else [])
  else
    ["❌ 交易不可行，建议重新评估"]
    ++ (if realization_rate < min_realization_rate then ["💡 变现率过低，考虑更换商品或渠道"] else [])
    ++ (if profit_margin < min_profit_margin then ["💡 利润率不达标，需要降低成本或提高售价"] else [])
    ++ (if risk_assessment.risk_level = "高风险" then ["🚨 风险过高，建议放弃或寻找替代方案"] else [])

/-- `net_profit / total_revenue if total_revenue > 0 else 0`. -/
def profit_margin_of (net_profit total_revenue : ℚ) : ℚ :=
  if total_revenue > 0 then net_profit / total_revenue else 0

/-- `net_profit / total_cost if total_cost > 0 else 0`. -/
def roi_of (net_profit total_cost : ℚ) : ℚ :=
  if total_cost > 0 then net_profit / total_cost else 0

/-- The dictionary returned by `FinancialCalculator.calculate_transaction_profit`
on its success path. -/
structure TransactionAssessment where
  feasibility : Bool
  total_revenue : ℚ
  total_cost : ℚ
  net_profit : ℚ
  profit_margin : ℚ
  return_on_investment : ℚ
  realization_rate : ℚ
  cost_breakdown : CostBreakdown
  risk_assessment : RiskAssessment
  recommendations : List String
  product_name : String
  brand_name : String
  channel_name : String
deriving DecidableEq

/-- Success path of `FinancialCalculator.calculate_transaction_profit`, after
the three rows have been fetched and past the point where the source could
raise `ZeroDivisionError` (see `calculate_transaction_profit`).
`if proposed_sale_price:` is Python truthiness, so `None` and `0` both
select the market-rate path. -/
def transactionFound (inv : InventoryRow) (ad_resource : MediaResource)
    (chan : SalesChannel) (proposed_sale_price : Option ℚ) : TransactionAssessment :=
  let original_value := inv.original_value
  let quantity := inv.quantity
  let ad_actual_cost := ad_resource.actual_cost
  let total_revenue :=
    if qTruthy proposed_sale_price then qOrZero proposed_sale_price * (quantity : ℚ)
    else original_value * calculate_realization_rate inv chan
  let realization_rate :=
    if qTruthy proposed_sale_price then total_revenue / original_value
    else calculate_realization_rate inv chan
  let cost_breakdown := calculate_cost_breakdown ad_actual_cost total_revenue quantity chan
  let total_cost := cost_breakdown.total
  let net_profit := total_revenue - total_cost
  let profit_margin := profit_margin_of net_profit total_revenue
  let roi := roi_of net_profit total_cost
  let risk_assessment :=
    assess_transaction_risk inv ad_resource chan realization_rate profit_margin
  let feasibility :=
    assess_transaction_feasibility realization_rate profit_margin roi risk_assessment
  let recommendations :=
    generate_recommendations feasibility realization_rate profit_margin risk_assessment
  { feasibility := feasibility
    total_revenue := total_revenue
    total_cost := total_cost
    net_profit := net_profit
    profit_margin := profit_margin
    return_on_investment := roi
    realization_rate := realization_rate
    cost_breakdown := cost_breakdown
    risk_assessment := risk_assessment
    recommendations := recommendations
    product_name := inv.product_name
    brand_name := inv.brand_name
    channel_name := chan.channel_name }

/-- `FinancialCalculator.calculate_transaction_profit` (the spec's
`assessTransaction`): fetch the inventory, media-resource and channel rows in
order, failing with the source's error dictionary if any is missing (the
error dictionary also carries `feasibility: False`), then assess the
transaction.  On the proposed-sale-price path the source computes
`realization_rate = total_revenue / original_value` with no guard, so an
item with original value 0 makes the method raise `ZeroDivisionError`;
that exception is modelled as an explicit error value.  The method performs
no database writes. -/
def calculate_transaction_profit (db : Db)
    (inventory_id ad_resource_id channel_id : ℕ)
    (proposed_sale_price : Option ℚ) : Except String TransactionAssessment :=
  match lookupById db.inventory inventory_id with
  | none => Except.error "库存记录不存在"
  | some inv =>
      match lookupById db.media_resources ad_resource_id with
      | none => Except.error "广告资源不存在"
      | some ad_resource =>
          match lookupById db.sales_channels channel_id with
          | none => Except.error "销售渠道不存在"
          | some chan =>
              if qTruthy proposed_sale_price then
                if inv.original_value = 0 then
                  Except.error "ZeroDivisionError: float division by zero"
                else
                  Except.ok (transactionFound inv ad_resource chan proposed_sale_price)
              else
                Except.ok (transactionFound inv ad_resource chan proposed_sale_price)

/-!  ## Profit Forecast Projector (`FinancialCalculator.generate_profit_forecast`)  -/

/-- One row of the trailing-30-day history aggregate
(`GROUP BY DATE(transaction_date)`). -/
structure DailyStat where
  transaction_count : ℕ
  daily_revenue : ℚ
  daily_profit : ℚ
deriving DecidableEq

/-- `historical_df['daily_profit'].mean()` guarded by
`if not historical_df.empty`, else 0. -/
def avg_daily_profit (history : List DailyStat) : ℚ :=
  if history.isEmpty then 0
  else (history.map (fun s => s.daily_profit)).sum / (history.length : ℚ)

/-- `historical_df['transaction_count'].mean()` guarded by
`if not historical_df.empty`, else 0. -/
def avg_transactions_per_day (history : List DailyStat) : ℚ :=
  if history.isEmpty then 0
  else (history.map (fun s => (s.transaction_count : ℚ))).sum / (history.length : ℚ)

/-- One entry of the `forecast_data` list built by
`generate_profit_forecast` (field order as in the source dictionary). -/
structure ForecastEntry where
  month : ℕ
  predicted_profit : ℚ
  predicted_transactions : ℤ
  inventory_conversion : ℚ
  cumulative_profit : ℚ
deriving DecidableEq

/-- The spec's per-period profit formula: avg-daily-profit × 30 × (1 + 0.05·m)
plus (pending-inventory-value × 0.3 ÷ N) × 0.08.  Stated from the spec's words
for comparison with the loop of `generate_profit_forecast`. -/
def specMonthlyProfit (d v : ℚ) (months m : ℕ) : ℚ :=
  d * 30 * (1 + 0.05 * (m : ℚ)) + v * 0.3 / (months : ℚ) * 0.08

/-- The `for month in range(1, months + 1)` loop of
`generate_profit_forecast`: `rem` months remain, the next month number is
`m`, and `acc` is the sum of the previously appended `predicted_profit`
values (the source reads it back from `forecast_data`).
`predicted_transactions` is `int(avg_tx * 30)` (truncation; the average of
non-negative counts is non-negative, so `⌊·⌋` agrees with `int()` here). -/
def forecastFrom (d avg_tx v : ℚ) (months : ℕ) :
    ℕ → ℕ → ℚ → List ForecastEntry
  | 0, _, _ => []
  | rem + 1, m, acc =>
      let monthly_profit := d * 30 * (1 + 0.05 * (m : ℚ))
      let monthly_inventory_value := v * 0.3 / (months : ℚ)
      let monthly_inventory_profit := monthly_inventory_value * 0.08
      let total_monthly_profit := monthly_profit + monthly_inventory_profit
      { month := m
        predicted_profit := total_monthly_profit
        predicted_transactions := ⌊avg_tx * 30⌋
        inventory_conversion := monthly_inventory_value
        cumulative_profit := acc + total_monthly_profit }
        :: forecastFrom d avg_tx v months rem (m + 1) (acc + total_monthly_profit)

/-- The report returned by `generate_profit_forecast`. -/
structure ForecastResult where
  forecast_period : ℕ
  historical_avg_profit : ℚ
  pending_inventory_value : ℚ
  monthly_forecast : List ForecastEntry
  total_predicted_profit : ℚ
deriving DecidableEq

/-- `FinancialCalculator.generate_profit_forecast` (the spec's
`forecastProfit`).  `pending_total_value` is the `SUM(original_value)`
aggregate over pending inventory, `None` when there are no pending rows,
read with `or 0`. -/
def generate_profit_forecast (history : List DailyStat)
    (pending_total_value : Option ℚ) (months : ℕ) : ForecastResult :=
  let avg := avg_daily_profit history
  let avg_tx := avg_transactions_per_day history
  let potential_inventory_value := qOrZero pending_total_value
  let forecast_data := forecastFrom avg avg_tx potential_inventory_value months months 1 0
  { forecast_period := months
    historical_avg_profit := avg * 30
    pending_inventory_value := potential_inventory_value
    monthly_forecast := forecast_data
    total_predicted_profit := (forecast_data.map (fun e => e.predicted_profit)).sum }

/-!  ## Concrete fixtures used by counterexamples and witnesses  -/

/-- An inventory row whose product name matches the mock price tables:
a 可口可乐 lot of 10 units booked at 100. -/
def itemCoke : InventoryRow :=
  { product_name := "可口可乐"
    category := "饮料"
    quantity := 10
    original_value := 100
    market_value := none
    days_until_expiry := none
    brand_name := "可口可乐公司"
    reputation_score := 9 }

/-- The spec's scenario item: original value 1,000,000, reputation 9,
beverage category, no expiry.  Its product name matches no mock price. -/
def itemScenario : InventoryRow :=
  { product_name := "某饮料产品"
    category := "饮料"
    quantity := 1
    original_value := 1000000
    market_value := none
    days_until_expiry := none
    brand_name := "某品牌"
    reputation_score := 9 }

/-- The same scenario item with expiry in 20 days. -/
def itemScenarioExpiring : InventoryRow :=
  { itemScenario with days_until_expiry := some 20 }

/-- An inventory row with original book value 0. -/
def itemZeroValue : InventoryRow :=
  { itemScenario with product_name := "某产品", original_value := 0 }

/-- A media resource with actual cost 10. -/
def mediaA : MediaResource :=
  { media_name := "资源A", actual_cost := 10 }

/-- A top-tier (S级) channel with 5% commission. -/
def chanS : SalesChannel :=
  { channel_name := "团长渠道", channel_type := "S级", commission_rate := some 5 }

/-- A wholesale (A级) channel with 5% commission. -/
def chanA : SalesChannel :=
  { channel_name := "批发渠道", channel_type := "A级", commission_rate := some 5 }

/-- A database holding the 可口可乐 item, one media resource and one channel,
all with id 1. -/
def dbCoke : Db :=
  { inventory := [(1, itemCoke)]
    media_resources := [(1, mediaA)]
    sales_channels := [(1, chanS)] }

/-- A database holding the two scenario items (ids 1 and 2). -/
def dbScenario : Db :=
  { inventory := [(1, itemScenario), (2, itemScenarioExpiring)]
    media_resources := [(1, mediaA)]
    sales_channels := [(1, chanS)] }

/-- A database holding the zero-book-value item. -/
def dbZero : Db :=
  { inventory := [(1, itemZeroValue)]
    media_resources := [(1, mediaA)]
    sales_channels := [(1, chanS)] }

/-- A concrete low-risk assessment record. -/
def riskLowSample : RiskAssessment :=
  { risk_score := 0, risk_level := "低风险", risk_color := "green", risk_factors := [] }

/-- A concrete high-risk assessment record. -/
def riskHighSample : RiskAssessment :=
  { risk_score := 9, risk_level := "高风险", risk_color := "red", risk_factors := [] }

/-!  ## Basic lemmas about the embedding  -/

theorem qTruthy_none : qTruthy none = false := rfl

theorem qTruthy_some (x : ℚ) : qTruthy (some x) = decide (x ≠ 0) := rfl

theorem qTruthy_pos {x : ℚ} (h : 0 < x) : qTruthy (some x) = true := by
  simp [qTruthy, ne_of_gt h]

theorem qOrZero_some (x : ℚ) : qOrZero (some x) = x := rfl

theorem valuateFound_product_name (k : ℕ) (inv : InventoryRow) :
    (valuateFound k inv).product_name = inv.product_name := rfl

theorem valuateFound_original_value (k : ℕ) (inv : InventoryRow) :
    (valuateFound k inv).original_value = inv.original_value := rfl

theorem valuateFound_market_value (k : ℕ) (inv : InventoryRow) :
    (valuateFound k inv).market_value =
      if qTruthy (search_xianyu_price inv.product_name) then
        qOrZero (search_xianyu_price inv.product_name)
      else if qTruthy (search_pdd_price inv.product_name) then
        qOrZero (search_pdd_price inv.product_name)
      else inv.original_value * 0.3 := rfl

theorem gmp_pdd (name : String) :
    (get_market_price_range name).pdd_price = search_pdd_price name := rfl

theorem gmp_xianyu (name : String) :
    (get_market_price_range name).xianyu_price = search_xianyu_price name := rfl

theorem gmp_recommended (name : String) :
    (get_market_price_range name).recommended_price =
      if qTruthy (search_xianyu_price name) then
        some (qOrZero (search_xianyu_price name) * 0.6)
      else if qTruthy (search_pdd_price name) then
        some (qOrZero (search_pdd_price name) * 0.5)
      else none := rfl

theorem valuateFound_realization_rate (k : ℕ) (inv : InventoryRow) :
    (valuateFound k inv).realization_rate =
      if qTruthy (get_market_price_range inv.product_name).recommended_price then
        (if qTruthy (get_market_price_range inv.product_name).recommended_price then
            qOrZero (get_market_price_range inv.product_name).recommended_price *
              (inv.quantity : ℚ)
          else inv.original_value * 0.08) / inv.original_value
      else 0.08 := rfl

theorem ite_qTruthy_pos {α : Sort _} {x : ℚ} (h : 0 < x) (a b : α) :
    (if qTruthy (some x) then a else b) = a := by
  simp [qTruthy_pos h]

theorem ite_qTruthy_none {α : Sort _} (a b : α) :
    (if qTruthy none then a else b) = b := rfl

theorem transactionFound_realization_rate_none (inv : InventoryRow)
    (ad : MediaResource) (chan : SalesChannel) :
    (transactionFound inv ad chan none).realization_rate =
      calculate_realization_rate inv chan := rfl

theorem transactionFound_total_revenue_none (inv : InventoryRow)
    (ad : MediaResource) (chan : SalesChannel) :
    (transactionFound inv ad chan none).total_revenue =
      inv.original_value * calculate_realization_rate inv chan := rfl

theorem transactionFound_total_cost (inv : InventoryRow) (ad : MediaResource)
    (chan : SalesChannel) (p : Option ℚ) :
    (transactionFound inv ad chan p).total_cost =
      (transactionFound inv ad chan p).cost_breakdown.total := rfl

theorem transactionFound_profit_margin (inv : InventoryRow) (ad : MediaResource)
    (chan : SalesChannel) (p : Option ℚ) :
    (transactionFound inv ad chan p).profit_margin =
      profit_margin_of (transactionFound inv ad chan p).net_profit
        (transactionFound inv ad chan p).total_revenue := rfl

theorem transactionFound_feasibility (inv : InventoryRow) (ad : MediaResource)
    (chan : SalesChannel) (p : Option ℚ) :
    (transactionFound inv ad chan p).feasibility =
      assess_transaction_feasibility (transactionFound inv ad chan p).realization_rate
        (transactionFound inv ad chan p).profit_margin
        (transactionFound inv ad chan p).return_on_investment
        (transactionFound inv ad chan p).risk_assessment := rfl

/-- Inverting the success path of `calculate_realization_value`. -/
theorem calculate_realization_value_ok (db : Db) (key : ℕ) (res : ValuationResult)
    (h : (calculate_realization_value db key).1 = Except.ok res) :
    ∃ inv, lookupById db.inventory key = some inv ∧ res = valuateFound key inv := by
  unfold calculate_realization_value at h
  cases hinv : lookupById db.inventory key with
  | none => rw [hinv] at h; simp at h
  | some inv =>
      rw [hinv] at h
      simp at h
      exact ⟨inv, rfl, h.symm⟩

/-- Inverting the success path of `calculate_transaction_profit`. -/
theorem calculate_transaction_profit_ok (db : Db) (i a c : ℕ) (p : Option ℚ)
    (res : TransactionAssessment)
    (h : calculate_transaction_profit db i a c p = Except.ok res) :
    ∃ inv ad chan, lookupById db.inventory i = some inv ∧
      lookupById db.media_resources a = some ad ∧
      lookupById db.sales_channels c = some chan ∧
      res = transactionFound inv ad chan p := by
  unfold calculate_transaction_profit at h
  cases hinv : lookupById db.inventory i with
  | none => rw [hinv] at h; simp at h
  | some inv =>
      rw [hinv] at h
      cases had : lookupById db.media_resources a with
      | none => rw [had] at h; simp at h
      | some ad =>
          rw [had] at h
          cases hchan : lookupById db.sales_channels c with
          | none => rw [hchan] at h; simp at h
          | some chan =>
              rw [hchan] at h
              have h' : (if qTruthy p then
                    (if inv.original_value = 0 then
                      (Except.error "ZeroDivisionError: float division by zero" :
                        Except String TransactionAssessment)
                    else Except.ok (transactionFound inv ad chan p))
                  else Except.ok (transactionFound inv ad chan p)) =
                  Except.ok res := h
              by_cases hq : qTruthy p = true
              · by_cases hz : inv.original_value = 0
                · rw [if_pos hq, if_pos hz] at h'
                  exact absurd h' (by simp)
                · rw [if_pos hq, if_neg hz] at h'
                  exact ⟨inv, ad, chan, rfl, rfl, rfl, (Except.ok.inj h').symm⟩
              · rw [if_neg hq] at h'
                exact ⟨inv, ad, chan, rfl, rfl, rfl, (Except.ok.inj h').symm⟩

/-- The two mock price tables have the same keys, scanned in the same order,
and for every matched key the 闲鱼 price is positive and at most the 拼多多
price.  Hence for every product name either both sources are absent, or both
are present with the 闲鱼 price the lower. -/
theorem search_pair (name : String) :
    (search_pdd_price name = none ∧ search_xianyu_price name = none) ∨
    ∃ p x, search_pdd_price name = some p ∧ search_xianyu_price name = some x ∧
      0 < x ∧ x ≤ p := by
  by_cases h1 : strContainsSub "可口可乐" name = true
  · exact Or.inr ⟨35.9, 28.0,
      by simp [search_pdd_price, mock_pdd_prices, searchTable, h1],
      by simp [search_xianyu_price, mock_xianyu_prices, searchTable, h1],
      by norm_num, by norm_num⟩
  by_cases h2 : strContainsSub "元气森林" name = true
  · exact Or.inr ⟨45.8, 38.0,
      by simp [search_pdd_price, mock_pdd_prices, searchTable, h1, h2],
      by simp [search_xianyu_price, mock_xianyu_prices, searchTable, h1, h2],
      by norm_num, by norm_num⟩
  by_cases h3 : strContainsSub "蓝月亮洗衣液" name = true
  · exact Or.inr ⟨29.9, 25.0,
      by simp [search_pdd_price, mock_pdd_prices, searchTable, h1, h2, h3],
      by simp [search_xianyu_price, mock_xianyu_prices, searchTable, h1, h2, h3],
      by norm_num, by norm_num⟩
  by_cases h4 : strContainsSub "康师傅方便面" name = true
  · exact Or.inr ⟨12.5, 10.0,
      by simp [search_pdd_price, mock_pdd_prices, searchTable, h1, h2, h3, h4],
      by simp [search_xianyu_price, mock_xianyu_prices, searchTable, h1, h2, h3, h4],
      by norm_num, by norm_num⟩
  by_cases h5 : strContainsSub "三只松鼠坚果" name = true
  · exact Or.inr ⟨89.0, 75.0,
      by simp [search_pdd_price, mock_pdd_prices, searchTable, h1, h2, h3, h4, h5],
      by simp [search_xianyu_price, mock_xianyu_prices, searchTable, h1, h2, h3, h4, h5],
      by norm_num, by norm_num⟩
  by_cases h6 : strContainsSub "维达纸巾" name = true
  · exact Or.inr ⟨22.9, 18.0,
      by simp [search_pdd_price, mock_pdd_prices, searchTable, h1, h2, h3, h4, h5, h6],
      by simp [search_xianyu_price, mock_xianyu_prices, searchTable, h1, h2, h3, h4, h5, h6],
      by norm_num, by norm_num⟩
  by_cases h7 : strContainsSub "小米充电宝" name = true
  · exact Or.inr ⟨59.0, 45.0,
      by simp [search_pdd_price, mock_pdd_prices, searchTable, h1, h2, h3, h4, h5, h6, h7],
      by simp [search_xianyu_price, mock_xianyu_prices, searchTable, h1, h2, h3, h4, h5, h6, h7],
      by norm_num, by norm_num⟩
  by_cases h8 : strContainsSub "美的电饭煲" name = true
  · exact Or.inr ⟨199.0, 150.0,
      by simp [search_pdd_price, mock_pdd_prices, searchTable, h1, h2, h3, h4, h5, h6, h7, h8],
      by simp [search_xianyu_price, mock_xianyu_prices, searchTable, h1, h2, h3, h4, h5, h6, h7, h8],
      by norm_num, by norm_num⟩
  exact Or.inl
    ⟨by simp [search_pdd_price, mock_pdd_prices, searchTable, h1, h2, h3, h4, h5, h6, h7, h8],
     by simp [search_xianyu_price, mock_xianyu_prices, searchTable, h1, h2, h3, h4, h5, h6, h7, h8]⟩

/-- Collapsing a guarded if-chain to independently triggered ranges (ℚ). -/
theorem ite_chain_q (r a b : ℚ) (x y : ℕ) :
    (if r < a then x else if r < b then y else 0) =
    (if r < a then x else if a ≤ r ∧ r < b then y else 0) := by
  by_cases h1 : r < a
  · rw [if_pos h1, if_pos h1]
  · rw [if_neg h1, if_neg h1]
    by_cases h2 : r < b
    · rw [if_pos h2, if_pos ⟨le_of_not_lt h1, h2⟩]
    · rw [if_neg h2, if_neg (fun hc => h2 hc.2)]

/-- Collapsing a guarded if-chain to independently triggered ranges (ℤ). -/
theorem ite_chain_z (d : ℤ) (a b : ℤ) (x y : ℕ) :
    (if d < a then x else if d < b then y else 0) =
    (if d < a then x else if a ≤ d ∧ d < b then y else 0) := by
  split_ifs <;> omega

theorem assess_transaction_risk_score (inv : InventoryRow) (ad : MediaResource)
    (chan : SalesChannel) (rate margin : ℚ) :
    (assess_transaction_risk inv ad chan rate margin).risk_score =
      (if rate < 0.06 then 3 else if rate < 0.08 then 1 else 0)
      + (if margin < 0.15 then 3 else if margin < 0.25 then 1 else 0)
      + (if inv.reputation_score < 6 then 2 else 0)
      + (match inv.days_until_expiry with
         | none => 0
         | some d => if d < 30 then 4 else if d < 90 then 2 else 0)
      + (if chan.channel_type ∈ (["S级", "A级"] : List String) then 0 else 2) := rfl

theorem assess_transaction_risk_level (inv : InventoryRow) (ad : MediaResource)
    (chan : SalesChannel) (rate margin : ℚ) :
    (assess_transaction_risk inv ad chan rate margin).risk_level =
      if 8 ≤ (assess_transaction_risk inv ad chan rate margin).risk_score then "高风险"
      else if 4 ≤ (assess_transaction_risk inv ad chan rate margin).risk_score then "中等风险"
      else "低风险" := rfl

theorem generate_profit_forecast_monthly (history : List DailyStat)
    (pending : Option ℚ) (months : ℕ) :
    (generate_profit_forecast history pending months).monthly_forecast =
      forecastFrom (avg_daily_profit history) (avg_transactions_per_day history)
        (qOrZero pending) months months 1 0 := rfl

/-- Closed form of the forecast loop: element `i` of the list built from
month `m` with accumulator `acc`. -/
theorem forecastFrom_getElem (d t v : ℚ) (months : ℕ) :
    ∀ (rem m : ℕ) (acc : ℚ) (i : ℕ), i < rem →
      (forecastFrom d t v months rem m acc)[i]? =
        some ⟨m + i, specMonthlyProfit d v months (m + i), ⌊t * 30⌋,
          v * 0.3 / (months : ℚ),
          acc + ∑ j ∈ Finset.range (i + 1), specMonthlyProfit d v months (m + j)⟩ := by
  intro rem
  induction rem with
  | zero => intro m acc i h; exact absurd h (Nat.not_lt_zero i)
  | succ n ih =>
      intro m acc i h
      cases i with
      | zero =>
          simp only [forecastFrom, List.getElem?_cons_zero, Option.some.injEq]
          simp [specMonthlyProfit, Finset.sum_range_one]
      | succ j =>
          simp only [forecastFrom, List.getElem?_cons_succ]
          rw [ih (m + 1) _ j (Nat.lt_of_succ_lt_succ h)]
          have harg : m + 1 + j = m + (j + 1) := by omega
          rw [harg, Finset.sum_range_succ'
            (fun k => specMonthlyProfit d v months (m + k)) (j + 1)]
          have hsh : ∀ k : ℕ,
              specMonthlyProfit d v months (m + 1 + k) =
                specMonthlyProfit d v months (m + (k + 1)) := by
            intro k
            have hk : m + 1 + k = m + (k + 1) := by omega
            rw [hk]
          simp only [hsh]
          simp only [Nat.add_zero, Option.some.injEq, ForecastEntry.mk.injEq,
            specMonthlyProfit, true_and, and_true, eq_self_iff_true]
          all_goals ring

/-- With no history and no pending inventory every predicted profit in the
loop output is zero. -/
theorem forecastFrom_zero (t : ℚ) (months : ℕ) :
    ∀ (rem m : ℕ) (acc : ℚ) (e : ForecastEntry),
      e ∈ forecastFrom 0 t 0 months rem m acc → e.predicted_profit = 0 := by
  intro rem
  induction rem with
  | zero => intro m acc e h; simp [forecastFrom] at h
  | succ n ih =>
      intro m acc e h
      simp only [forecastFrom, List.mem_cons] at h
      rcases h with h | h
      · subst h; simp
      · exact ih _ _ _ h

/-!  ## Claim theorems  -/

/-- C1, counterexample: `valuate` (`calculate_realization_value`) on a
可口可乐 item with 10 units booked at 100 takes the recommended-price path
and reports `realization_rate = 16.8 × 10 / 100 = 1.68`, outside
`[0.05, 0.15]` — the recommended-price path does not clamp the rate. -/
theorem c1_realization_rate_counterexample :
    ((calculate_realization_value dbCoke 1).1.toOption.map
        (fun res => res.realization_rate)) = some (42 / 25) ∧
    ¬((5 / 100 : ℚ) ≤ 42 / 25 ∧ (42 / 25 : ℚ) ≤ 15 / 100) := by
  constructor
  · have hok : (calculate_realization_value dbCoke 1).1 =
        Except.ok (valuateFound 1 itemCoke) := rfl
    have hx : search_xianyu_price "可口可乐" = some 28.0 := rfl
    have hrec : (get_market_price_range "可口可乐").recommended_price =
        some (28.0 * 0.6) := by
      rw [gmp_recommended, hx, ite_qTruthy_pos (by norm_num), qOrZero_some]
    rw [hok]
    simp only [Except.toOption, Option.map]
    rw [valuateFound_realization_rate]
    simp only [itemCoke]
    rw [hrec, ite_qTruthy_pos (by norm_num), ite_qTruthy_pos (by norm_num), qOrZero_some]
    norm_num
  · norm_num

/-- C1, amended: the realization rate lies in `[0.05, 0.15]` on the
rate-driven path — `calculate_realization_rate` always clamps its composed
rate to `[min_realization_rate, max_realization_rate] = [0.05, 0.15]`, and
the `TransactionAssessment` produced by `assessTransaction` without a
proposed sale price carries exactly that clamped rate.  (The
recommended-price path of `valuate` and the proposed-sale-price path of
`assessTransaction` instead derive the rate as revenue / original value,
which is not clamped.) -/
theorem c1_realization_rate_clamped_rate_path :
    (min_realization_rate = 0.05 ∧ max_realization_rate = 0.15) ∧
    (∀ (inv : InventoryRow) (chan : SalesChannel),
      min_realization_rate ≤ calculate_realization_rate inv chan ∧
        calculate_realization_rate inv chan ≤ max_realization_rate) ∧
    (∀ (db : Db) (i a c : ℕ) (res : TransactionAssessment),
      calculate_transaction_profit db i a c none = Except.ok res →
        min_realization_rate ≤ res.realization_rate ∧
          res.realization_rate ≤ max_realization_rate) := by
  have hclamp : ∀ (inv : InventoryRow) (chan : SalesChannel),
      min_realization_rate ≤ calculate_realization_rate inv chan ∧
        calculate_realization_rate inv chan ≤ max_realization_rate := by
    intro inv chan
    unfold calculate_realization_rate
    refine ⟨le_max_left _ _, max_le ?_ (min_le_left _ _)⟩
    norm_num [min_realization_rate, max_realization_rate]
  refine ⟨⟨rfl, rfl⟩, hclamp, ?_⟩
  intro db i a c res h
  obtain ⟨inv, ad, chan, _, _, _, hres⟩ :=
    calculate_transaction_profit_ok db i a c none res h
  rw [hres, transactionFound_realization_rate_none]
  exact hclamp inv chan

/-- Witness for C1: a concrete assessment (the spec's scenario item through
the S-tier channel, no proposed price) whose realization rate obeys the
clamp. -/
theorem c1_realization_rate_clamped_rate_path_witness :
    min_realization_rate ≤ (transactionFound itemScenario mediaA chanS none).realization_rate ∧
      (transactionFound itemScenario mediaA chanS none).realization_rate ≤
        max_realization_rate := by
  exact c1_realization_rate_clamped_rate_path.2.2 dbScenario 1 1 1
    (transactionFound itemScenario mediaA chanS none) rfl

/-- C2: `assess_transaction_feasibility` returns `false` whenever
realization rate < 0.05, or profit margin < 0.20, or ROI < 0.5; with no
veto and a high risk level it returns `true` iff margin > 0.3 and
ROI > 1.0; and with no veto and a non-high risk level it returns `true`. -/
theorem c2_feasibility_rules :
    ∀ (r m v : ℚ) (risk : RiskAssessment),
      ((r < 0.05 ∨ m < 0.2 ∨ v < 0.5) →
        assess_transaction_feasibility r m v risk = false) ∧
      (0.05 ≤ r → 0.2 ≤ m → 0.5 ≤ v → risk.risk_level = "高风险" →
        (assess_transaction_feasibility r m v risk = true ↔ (m > 0.3 ∧ v > 1.0))) ∧
      (0.05 ≤ r → 0.2 ≤ m → 0.5 ≤ v → risk.risk_level ≠ "高风险" →
        assess_transaction_feasibility r m v risk = true) := by
  intro r m v risk
  unfold assess_transaction_feasibility min_realization_rate min_profit_margin
  refine ⟨?_, ?_, ?_⟩
  · intro h
    split_ifs with h1 h2 h3 h4
    · rfl
    · rfl
    · rfl
    · exfalso; rcases h with h | h | h
      · exact h1 h
      · exact h2 h
      · exact h3 h
    · exfalso; rcases h with h | h | h
      · exact h1 h
      · exact h2 h
      · exact h3 h
  · intro hr hm hv hhigh
    rw [if_neg (not_lt.mpr hr), if_neg (not_lt.mpr hm), if_neg (not_lt.mpr hv),
      if_pos hhigh]
    exact decide_eq_true_iff
  · intro hr hm hv hnot
    rw [if_neg (not_lt.mpr hr), if_neg (not_lt.mpr hm), if_neg (not_lt.mpr hv),
      if_neg hnot]

/-- Witness for C2: a vetoed low-rate transaction, a high-risk transaction
passing the stricter gate, and a no-veto low-risk transaction. -/
theorem c2_feasibility_rules_witness :
    assess_transaction_feasibility 0.04 0.5 2 riskHighSample = false ∧
    assess_transaction_feasibility 0.1 0.35 1.2 riskHighSample = true ∧
    assess_transaction_feasibility 0.1 0.22 0.8 riskLowSample = true := by
  refine ⟨?_, ?_, ?_⟩
  · exact (c2_feasibility_rules 0.04 0.5 2 riskHighSample).1 (Or.inl (by norm_num))
  · exact ((c2_feasibility_rules 0.1 0.35 1.2 riskHighSample).2.1 (by norm_num)
      (by norm_num) (by norm_num) rfl).mpr ⟨by norm_num, by norm_num⟩
  · exact (c2_feasibility_rules 0.1 0.22 0.8 riskLowSample).2.2 (by norm_num)
      (by norm_num) (by norm_num) (by decide)

/-- C4, counterexample: for the scenario item with expiry in 20 days the
composed rate is 0.0528, which is already above the 0.05 floor, so the code
does not clamp it to 0.05, and the total revenue is 52,800 rather than the
claimed 50,000. -/
theorem c4_scenario_counterexample :
    calculate_realization_rate itemScenarioExpiring chanS = 0.0528 ∧
    (0.0528 : ℚ) ≠ 0.05 ∧
    ((calculate_transaction_profit dbScenario 2 1 1 none).toOption.map
        (fun res => res.total_revenue)) = some 52800 ∧
    (52800 : ℚ) ≠ 50000 := by
  have hrate : calculate_realization_rate itemScenarioExpiring chanS = 0.0528 := by
    unfold calculate_realization_rate itemScenarioExpiring itemScenario chanS
    norm_num [min_realization_rate, max_realization_rate, default_realization_rate]
  have hok : calculate_transaction_profit dbScenario 2 1 1 none =
      Except.ok (transactionFound itemScenarioExpiring mediaA chanS none) := rfl
  refine ⟨hrate, by norm_num, ?_, by norm_num⟩
  rw [hok]
  simp only [Except.toOption, Option.map]
  rw [transactionFound_total_revenue_none, hrate]
  norm_num [itemScenarioExpiring, itemScenario]

/-- C4, amended: the no-expiry scenario behaves as claimed (rate
0.08 × 1.2 × 1.1 × 1.0 × 1.0 = 0.1056, revenue 105,600); for the same item
with expiry in 20 days the expiry multiplier 0.5 gives the composed rate
0.0528, which is above the 0.05 floor and therefore kept, so the revenue is
52,800. -/
theorem c4_scenario_amended :
    calculate_realization_rate itemScenario chanS = 0.1056 ∧
    ((calculate_transaction_profit dbScenario 1 1 1 none).toOption.map
        (fun res => (res.realization_rate, res.total_revenue))) =
      some (0.1056, 105600) ∧
    calculate_realization_rate itemScenarioExpiring chanS = 0.0528 ∧
    ((calculate_transaction_profit dbScenario 2 1 1 none).toOption.map
        (fun res => (res.realization_rate, res.total_revenue))) =
      some (0.0528, 52800) := by
  have hrate1 : calculate_realization_rate itemScenario chanS = 0.1056 := by
    unfold calculate_realization_rate itemScenario chanS
    norm_num [min_realization_rate, max_realization_rate, default_realization_rate]
  have hrate2 : calculate_realization_rate itemScenarioExpiring chanS = 0.0528 := by
    unfold calculate_realization_rate itemScenarioExpiring itemScenario chanS
    norm_num [min_realization_rate, max_realization_rate, default_realization_rate]
  have hok1 : calculate_transaction_profit dbScenario 1 1 1 none =
      Except.ok (transactionFound itemScenario mediaA chanS none) := rfl
  have hok2 : calculate_transaction_profit dbScenario 2 1 1 none =
      Except.ok (transactionFound itemScenarioExpiring mediaA chanS none) := rfl
  refine ⟨hrate1, ?_, hrate2, ?_⟩
  · rw [hok1]
    simp only [Except.toOption, Option.map]
    rw [transactionFound_realization_rate_none, transactionFound_total_revenue_none, hrate1]
    norm_num [itemScenario, Prod.mk.injEq]
  · rw [hok2]
    simp only [Except.toOption, Option.map]
    rw [transactionFound_realization_rate_none, transactionFound_total_revenue_none, hrate2]
    norm_num [itemScenarioExpiring, itemScenario, Prod.mk.injEq]

/-- C3: `assess_transaction_risk` computes the risk score as a sum of
independently triggered additive contributions — rate <6% → +3, 6–8% → +1;
margin <15% → +3, 15–25% → +1; reputation <6 → +2; expiry within 30 days →
+4, within 90 days → +2; channel tier other than S级/A级 → +2 — and
classifies the score as 高风险 iff ≥8, 中等风险 iff in [4,8), 低风险 iff <4. -/
theorem c3_risk_scoring :
    ∀ (inv : InventoryRow) (ad : MediaResource) (chan : SalesChannel) (rate margin : ℚ),
      ((assess_transaction_risk inv ad chan rate margin).risk_score =
        (if rate < 0.06 then 3 else if 0.06 ≤ rate ∧ rate < 0.08 then 1 else 0)
        + (if margin < 0.15 then 3 else if 0.15 ≤ margin ∧ margin < 0.25 then 1 else 0)
        + (if inv.reputation_score < 6 then 2 else 0)
        + (match inv.days_until_expiry with
           | none => 0
           | some d => if d < 30 then 4 else if 30 ≤ d ∧ d < 90 then 2 else 0)
        + (if chan.channel_type ∈ (["S级", "A级"] : List String) then 0 else 2)) ∧
      ((assess_transaction_risk inv ad chan rate margin).risk_level = "高风险" ↔
        8 ≤ (assess_transaction_risk inv ad chan rate margin).risk_score) ∧
      ((assess_transaction_risk inv ad chan rate margin).risk_level = "中等风险" ↔
        (4 ≤ (assess_transaction_risk inv ad chan rate margin).risk_score ∧
          (assess_transaction_risk inv ad chan rate margin).risk_score < 8)) ∧
      ((assess_transaction_risk inv ad chan rate margin).risk_level = "低风险" ↔
        (assess_transaction_risk inv ad chan rate margin).risk_score < 4) := by
  intro inv ad chan rate margin
  refine ⟨?_, ?_, ?_, ?_⟩
  · rw [assess_transaction_risk_score, ite_chain_q rate 0.06 0.08 3 1,
      ite_chain_q margin 0.15 0.25 3 1]
    cases hd : inv.days_until_expiry with
    | none => simp only [hd]
    | some d => simp only [hd]; rw [ite_chain_z d 30 90 4 2]
  · rw [assess_transaction_risk_level]
    by_cases h8 : 8 ≤ (assess_transaction_risk inv ad chan rate margin).risk_score
    · rw [if_pos h8]; exact iff_of_true rfl h8
    · rw [if_neg h8]
      by_cases h4 : 4 ≤ (assess_transaction_risk inv ad chan rate margin).risk_score
      · rw [if_pos h4]; exact iff_of_false (by decide) h8
      · rw [if_neg h4]; exact iff_of_false (by decide) h8
  · rw [assess_transaction_risk_level]
    by_cases h8 : 8 ≤ (assess_transaction_risk inv ad chan rate margin).risk_score
    · rw [if_pos h8]; exact iff_of_false (by decide) (by omega)
    · rw [if_neg h8]
      by_cases h4 : 4 ≤ (assess_transaction_risk inv ad chan rate margin).risk_score
      · rw [if_pos h4]; exact iff_of_true rfl (by omega)
      · rw [if_neg h4]; exact iff_of_false (by decide) (by omega)
  · rw [assess_transaction_risk_level]
    by_cases h8 : 8 ≤ (assess_transaction_risk inv ad chan rate margin).risk_score
    · rw [if_pos h8]; exact iff_of_false (by decide) (by omega)
    · rw [if_neg h8]
      by_cases h4 : 4 ≤ (assess_transaction_risk inv ad chan rate margin).risk_score
      · rw [if_pos h4]; exact iff_of_false (by decide) (by omega)
      · rw [if_neg h4]; exact iff_of_true rfl (by omega)

/-- C5: the market value computed by `valuate` is the 闲鱼 price if present
(which, for the mock sources, is the lower of the two whenever both are
present), else the 拼多多 price, else 30% of the original book value. -/
theorem c5_market_value_rule :
    ∀ (db : Db) (inventory_id : ℕ) (res : ValuationResult),
      (calculate_realization_value db inventory_id).1 = Except.ok res →
      ((∀ p x, search_pdd_price res.product_name = some p →
          search_xianyu_price res.product_name = some x →
          res.market_value = min p x) ∧
       (∀ p, search_pdd_price res.product_name = some p →
          search_xianyu_price res.product_name = none →
          res.market_value = p) ∧
       (∀ x, search_xianyu_price res.product_name = some x →
          search_pdd_price res.product_name = none →
          res.market_value = x) ∧
       (search_pdd_price res.product_name = none →
          search_xianyu_price res.product_name = none →
          res.market_value = res.original_value * 0.3)) := by
  intro db key res h
  obtain ⟨inv, _, hres⟩ := calculate_realization_value_ok db key res h
  subst hres
  simp only [valuateFound_product_name, valuateFound_original_value]
  refine ⟨?_, ?_, ?_, ?_⟩
  · intro p x hp hx
    rcases search_pair inv.product_name with ⟨hp', _⟩ | ⟨p', x', hp', hx', hxpos, hxle⟩
    · rw [hp'] at hp; exact absurd hp (by simp)
    · rw [hp'] at hp; rw [hx'] at hx
      obtain rfl := Option.some.inj hp
      obtain rfl := Option.some.inj hx
      rw [valuateFound_market_value, hx', ite_qTruthy_pos hxpos, qOrZero_some]
      exact (min_eq_right hxle).symm
  · intro p hp hxn
    rcases search_pair inv.product_name with ⟨hp', _⟩ | ⟨p', x', hp', hx', _, _⟩
    · rw [hp'] at hp; exact absurd hp (by simp)
    · rw [hx'] at hxn; exact absurd hxn (by simp)
  · intro x hx hpn
    rcases search_pair inv.product_name with ⟨_, hx'⟩ | ⟨p', x', hp', hx', _, _⟩
    · rw [hx'] at hx; exact absurd hx (by simp)
    · rw [hp'] at hpn; exact absurd hpn (by simp)
  · intro hpn hxn
    rw [valuateFound_market_value, hxn, hpn, ite_qTruthy_none, ite_qTruthy_none]

/-- Witness for C5: the 可口可乐 item, for which both sources answer
(拼多多 35.9, 闲鱼 28.0), gets market value `min 35.9 28.0 = 28.0`. -/
theorem c5_market_value_rule_witness :
    (valuateFound 1 itemCoke).market_value = min (35.9 : ℚ) 28.0 := by
  exact (c5_market_value_rule dbCoke 1 (valuateFound 1 itemCoke) rfl).1 35.9 28.0 rfl rfl

/-- C6: the recommended resale price is 60% of the 闲鱼 price when present
(the lower price when both sources answer), otherwise 50% of the 拼多多
price when present, and is absent when neither source returns a price. -/
theorem c6_recommended_price_rule :
    ∀ name : String,
      (∀ p x, search_pdd_price name = some p → search_xianyu_price name = some x →
        (get_market_price_range name).recommended_price = some (min p x * 0.6)) ∧
      (∀ x, search_xianyu_price name = some x → search_pdd_price name = none →
        (get_market_price_range name).recommended_price = some (x * 0.6)) ∧
      (∀ p, search_pdd_price name = some p → search_xianyu_price name = none →
        (get_market_price_range name).recommended_price = some (p * 0.5)) ∧
      (search_pdd_price name = none → search_xianyu_price name = none →
        (get_market_price_range name).recommended_price = none) := by
  intro name
  refine ⟨?_, ?_, ?_, ?_⟩
  · intro p x hp hx
    rcases search_pair name with ⟨hp', _⟩ | ⟨p', x', hp', hx', hxpos, hxle⟩
    · rw [hp'] at hp; exact absurd hp (by simp)
    · rw [hp'] at hp; rw [hx'] at hx
      obtain rfl := Option.some.inj hp
      obtain rfl := Option.some.inj hx
      rw [gmp_recommended, hx', ite_qTruthy_pos hxpos, qOrZero_some, min_eq_right hxle]
  · intro x hx hpn
    rcases search_pair name with ⟨_, hx'⟩ | ⟨p', x', hp', hx', _, _⟩
    · rw [hx'] at hx; exact absurd hx (by simp)
    · rw [hp'] at hpn; exact absurd hpn (by simp)
  · intro p hp hxn
    rcases search_pair name with ⟨hp', _⟩ | ⟨p', x', hp', hx', _, _⟩
    · rw [hp'] at hp; exact absurd hp (by simp)
    · rw [hx'] at hxn; exact absurd hxn (by simp)
  · intro hpn hxn
    rw [gmp_recommended, hxn, hpn, ite_qTruthy_none, ite_qTruthy_none]

/-- Witness for C6: the 可口可乐 lookup (拼多多 35.9, 闲鱼 28.0) yields the
recommended price `min 35.9 28.0 × 0.6`. -/
theorem c6_recommended_price_rule_witness :
    (get_market_price_range "可口可乐").recommended_price =
      some (min (35.9 : ℚ) 28.0 * 0.6) := by
  exact (c6_recommended_price_rule "可口可乐").1 35.9 28.0 rfl rfl

/-- C7: `calculate_cost_breakdown` returns exactly the five components
advertising = media cost, commission = revenue × rate/100, storage =
quantity × 2, logistics = revenue × 0.02, overhead = revenue × 0.01; on
non-negative inputs every component is ≥ 0; the assessment's total cost is
the sum of the components; and the spec scenario totals 29,000. -/
theorem c7_cost_breakdown_rules :
    (∀ (a r c : ℚ) (q : ℕ) (chan : SalesChannel),
      chan.commission_rate = some c → 0 ≤ a → 0 ≤ r → 0 ≤ c →
        (calculate_cost_breakdown a r q chan).advertising_cost = a ∧
        (calculate_cost_breakdown a r q chan).channel_commission = r * (c / 100) ∧
        (calculate_cost_breakdown a r q chan).storage_cost = (q : ℚ) * 2 ∧
        (calculate_cost_breakdown a r q chan).logistics_cost = r * 0.02 ∧
        (calculate_cost_breakdown a r q chan).operational_cost = r * 0.01 ∧
        (0 ≤ (calculate_cost_breakdown a r q chan).advertising_cost ∧
         0 ≤ (calculate_cost_breakdown a r q chan).channel_commission ∧
         0 ≤ (calculate_cost_breakdown a r q chan).storage_cost ∧
         0 ≤ (calculate_cost_breakdown a r q chan).logistics_cost ∧
         0 ≤ (calculate_cost_breakdown a r q chan).operational_cost) ∧
        (calculate_cost_breakdown a r q chan).total =
          (calculate_cost_breakdown a r q chan).advertising_cost +
          (calculate_cost_breakdown a r q chan).channel_commission +
          (calculate_cost_breakdown a r q chan).storage_cost +
          (calculate_cost_breakdown a r q chan).logistics_cost +
          (calculate_cost_breakdown a r q chan).operational_cost) ∧
    (∀ (db : Db) (i a c : ℕ) (p : Option ℚ) (res : TransactionAssessment),
      calculate_transaction_profit db i a c p = Except.ok res →
        res.total_cost = res.cost_breakdown.total) ∧
    (calculate_cost_breakdown 20000 100000 500 chanA).total = 29000 := by
  refine ⟨?_, ?_, ?_⟩
  · intro a r c q chan hcomm ha hr hc
    have hfield : (calculate_cost_breakdown a r q chan).channel_commission =
        r * (qOrZero chan.commission_rate / 100) := rfl
    have hcommval : (calculate_cost_breakdown a r q chan).channel_commission =
        r * (c / 100) := by rw [hfield, hcomm, qOrZero_some]
    refine ⟨rfl, hcommval, ?_, rfl, rfl, ⟨ha, ?_, ?_, ?_, ?_⟩, rfl⟩
    · norm_num [calculate_cost_breakdown, storage_cost_per_unit]
    · rw [hcommval]; exact mul_nonneg hr (div_nonneg hc (by norm_num))
    · show (0 : ℚ) ≤ (q : ℚ) * storage_cost_per_unit
      have : (0 : ℚ) ≤ (q : ℚ) := by positivity
      norm_num [storage_cost_per_unit, this]
    · exact mul_nonneg hr (by norm_num [logistics_cost_ratio])
    · exact mul_nonneg hr (by norm_num)
  · intro db i a c p res h
    obtain ⟨inv, ad, chan, _, _, _, hres⟩ :=
      calculate_transaction_profit_ok db i a c p res h
    rw [hres]
    exact transactionFound_total_cost inv ad chan p
  · norm_num [calculate_cost_breakdown, CostBreakdown.total, chanA, qOrZero,
      storage_cost_per_unit, logistics_cost_ratio]

/-- Witness for C7: the spec scenario (media cost 20,000, revenue 100,000,
commission 5%, quantity 500) through the general rule. -/
theorem c7_cost_breakdown_rules_witness :
    (calculate_cost_breakdown 20000 100000 500 chanA).advertising_cost = 20000 ∧
    (calculate_cost_breakdown 20000 100000 500 chanA).channel_commission =
      100000 * (5 / 100) := by
  have h := c7_cost_breakdown_rules.1 20000 100000 5 500 chanA rfl
    (by norm_num) (by norm_num) (by norm_num)
  exact ⟨h.1, h.2.1⟩

/-- C9: missing identities make the engines return the source's explicit
error value — `valuate` returns its error string and leaves the database
unchanged, `assessTransaction` returns the error string matching the first
missing row — and `valuate`'s market-value write-back happens exactly on the
success path. -/
theorem c9_not_found_behaviour :
    ∀ (db : Db) (inventory_id ad_id chan_id : ℕ) (p : Option ℚ),
      (lookupById db.inventory inventory_id = none →
        calculate_realization_value db inventory_id =
          (Except.error ("库存记录不存在，ID: " ++ toString inventory_id), db)) ∧
      (lookupById db.inventory inventory_id = none →
        calculate_transaction_profit db inventory_id ad_id chan_id p =
          Except.error "库存记录不存在") ∧
      (∀ inv, lookupById db.inventory inventory_id = some inv →
        lookupById db.media_resources ad_id = none →
        calculate_transaction_profit db inventory_id ad_id chan_id p =
          Except.error "广告资源不存在") ∧
      (∀ inv ad, lookupById db.inventory inventory_id = some inv →
        lookupById db.media_resources ad_id = some ad →
        lookupById db.sales_channels chan_id = none →
        calculate_transaction_profit db inventory_id ad_id chan_id p =
          Except.error "销售渠道不存在") ∧
      (∀ inv, lookupById db.inventory inventory_id = some inv →
        calculate_realization_value db inventory_id =
          (Except.ok (valuateFound inventory_id inv),
           writeBackMarketValue db inventory_id
             (valuateFound inventory_id inv).market_value)) := by
  intro db i a c p
  refine ⟨?_, ?_, ?_, ?_, ?_⟩
  · intro h; unfold calculate_realization_value; rw [h]
  · intro h; unfold calculate_transaction_profit; rw [h]
  · intro inv h1 h2; unfold calculate_transaction_profit; rw [h1, h2]
  · intro inv ad h1 h2 h3; unfold calculate_transaction_profit; rw [h1, h2, h3]
  · intro inv h; unfold calculate_realization_value writeBackMarketValue; rw [h]

/-- Witness for C9: missing ids 2 in the one-row database yield each error
with the database unchanged, and the present id 1 yields the success pair
with the market-value write-back. -/
theorem c9_not_found_behaviour_witness :
    calculate_realization_value dbCoke 2 =
      (Except.error ("库存记录不存在，ID: " ++ toString 2), dbCoke) ∧
    calculate_transaction_profit dbCoke 2 1 1 none = Except.error "库存记录不存在" ∧
    calculate_transaction_profit dbCoke 1 2 1 none = Except.error "广告资源不存在" ∧
    calculate_transaction_profit dbCoke 1 1 2 none = Except.error "销售渠道不存在" ∧
    calculate_realization_value dbCoke 1 =
      (Except.ok (valuateFound 1 itemCoke),
       writeBackMarketValue dbCoke 1 (valuateFound 1 itemCoke).market_value) := by
  refine ⟨?_, ?_, ?_, ?_, ?_⟩
  · exact (c9_not_found_behaviour dbCoke 2 1 1 none).1 rfl
  · exact (c9_not_found_behaviour dbCoke 2 1 1 none).2.1 rfl
  · exact (c9_not_found_behaviour dbCoke 1 2 1 none).2.2.1 itemCoke rfl rfl
  · exact (c9_not_found_behaviour dbCoke 1 1 2 none).2.2.2.1 itemCoke mediaA rfl rfl rfl
  · exact (c9_not_found_behaviour dbCoke 1 1 1 none).2.2.2.2 itemCoke rfl

/-- C10, counterexample: the assessment does not avoid division by zero for
every input — on the proposed-sale-price path the source divides
`total_revenue / original_value` with no guard, so assessing an item with
original book value 0 together with a proposed sale price fails with
`ZeroDivisionError` instead of returning a (vetoed) assessment. -/
theorem c10_divide_by_zero_counterexample :
    calculate_transaction_profit dbZero 1 1 1 (some 10) =
      Except.error "ZeroDivisionError: float division by zero" ∧
    (calculate_transaction_profit dbZero 1 1 1 (some 10)).toOption = none := by
  have h : calculate_transaction_profit dbZero 1 1 1 (some 10) =
      Except.error "ZeroDivisionError: float division by zero" := by
    show (if qTruthy (some (10 : ℚ)) then
        (if itemZeroValue.original_value = 0 then
          (Except.error "ZeroDivisionError: float division by zero" :
            Except String TransactionAssessment)
        else Except.ok (transactionFound itemZeroValue mediaA chanS (some 10)))
      else Except.ok (transactionFound itemZeroValue mediaA chanS (some 10))) =
      Except.error "ZeroDivisionError: float division by zero"
    rw [ite_qTruthy_pos (show (0 : ℚ) < 10 by norm_num),
      if_pos (show itemZeroValue.original_value = 0 from rfl)]
  exact ⟨h, by rw [h]; rfl⟩

/-- C10 (amended): the margin and ROI ratios are guarded totals — margin is
net/revenue only when revenue > 0 and 0 otherwise, ROI is net/cost only when
cost > 0 and 0 otherwise — so the guarded ratio divisions never divide by
zero and a zero-revenue assessment that completes gets margin 0 and is
vetoed as infeasible.  The guard does not extend to the proposed-sale-price
path: there the source divides total revenue by the original value
unguarded, so a zero-book-value item with a non-zero proposed price makes
the assessment fail with `ZeroDivisionError` instead of returning a
result. -/
theorem c10_margin_roi_guards :
    (∀ (net revenue cost : ℚ),
      (revenue ≤ 0 → profit_margin_of net revenue = 0) ∧
      (0 < revenue → profit_margin_of net revenue = net / revenue) ∧
      (cost ≤ 0 → roi_of net cost = 0) ∧
      (0 < cost → roi_of net cost = net / cost)) ∧
    (∀ (net rate v : ℚ) (risk : RiskAssessment),
      assess_transaction_feasibility rate (profit_margin_of net 0) v risk = false) ∧
    (∀ (db : Db) (i a c : ℕ) (p : Option ℚ) (res : TransactionAssessment),
      calculate_transaction_profit db i a c p = Except.ok res →
      res.total_revenue = 0 →
      res.profit_margin = 0 ∧ res.feasibility = false) ∧
    (∀ (db : Db) (i a c : ℕ) (p : ℚ) (inv : InventoryRow) (ad : MediaResource)
        (chan : SalesChannel),
      lookupById db.inventory i = some inv →
      lookupById db.media_resources a = some ad →
      lookupById db.sales_channels c = some chan →
      p ≠ 0 → inv.original_value = 0 →
      calculate_transaction_profit db i a c (some p) =
        Except.error "ZeroDivisionError: float division by zero") := by
  have hmargin0 : ∀ net : ℚ, profit_margin_of net 0 = 0 := by
    intro net; simp [profit_margin_of]
  have hzero : ∀ (rate v : ℚ) (risk : RiskAssessment),
      assess_transaction_feasibility rate 0 v risk = false := by
    intro rate v risk
    unfold assess_transaction_feasibility min_realization_rate min_profit_margin
    split_ifs with h1 h2 h3 h4 <;> try rfl
    all_goals exact absurd (by norm_num : (0 : ℚ) < 0.2) h2
  refine ⟨?_, ?_, ?_, ?_⟩
  · intro net revenue cost
    refine ⟨?_, ?_, ?_, ?_⟩
    · intro h; exact if_neg (not_lt.mpr h)
    · intro h; exact if_pos h
    · intro h; exact if_neg (not_lt.mpr h)
    · intro h; exact if_pos h
  · intro net rate v risk
    rw [hmargin0]
    exact hzero rate v risk
  · intro db i a c p res h h0
    obtain ⟨inv, ad, chan, _, _, _, hres⟩ :=
      calculate_transaction_profit_ok db i a c p res h
    subst hres
    have hm : (transactionFound inv ad chan p).profit_margin = 0 := by
      rw [transactionFound_profit_margin, h0, hmargin0]
    refine ⟨hm, ?_⟩
    rw [transactionFound_feasibility, hm]
    exact hzero _ _ _
  · intro db i a c p inv ad chan h1 h2 h3 hp hz
    have hq : qTruthy (some p) = true := by
      rw [qTruthy_some]; exact decide_eq_true hp
    have hgoal : (if qTruthy (some p) then
          (if inv.original_value = 0 then
            (Except.error "ZeroDivisionError: float division by zero" :
              Except String TransactionAssessment)
          else Except.ok (transactionFound inv ad chan (some p)))
        else Except.ok (transactionFound inv ad chan (some p))) =
        Except.error "ZeroDivisionError: float division by zero" := by
      rw [if_pos hq, if_pos hz]
    unfold calculate_transaction_profit
    rw [h1, h2, h3]
    exact hgoal

/-- Witness for C10: the guards at concrete ratios, the zero-book-value item
whose assessment (no proposed price) has zero revenue, margin 0 and
feasibility false, and the same item with proposed price 10 failing with the
division-by-zero error. -/
theorem c10_margin_roi_guards_witness :
    profit_margin_of 5 0 = 0 ∧
    profit_margin_of 5 2 = 5 / 2 ∧
    roi_of 5 0 = 0 ∧
    roi_of 5 2 = 5 / 2 ∧
    assess_transaction_feasibility 0.1 (profit_margin_of 5 0) 2 riskLowSample = false ∧
    ((transactionFound itemZeroValue mediaA chanS none).profit_margin = 0 ∧
      (transactionFound itemZeroValue mediaA chanS none).feasibility = false) ∧
    calculate_transaction_profit dbZero 1 1 1 (some 10) =
      Except.error "ZeroDivisionError: float division by zero" := by
  have hrev : (transactionFound itemZeroValue mediaA chanS none).total_revenue = 0 := by
    rw [transactionFound_total_revenue_none]
    simp [itemZeroValue, itemScenario]
  refine ⟨?_, ?_, ?_, ?_, ?_, ?_, ?_⟩
  · exact (c10_margin_roi_guards.1 5 0 0).1 le_rfl
  · exact (c10_margin_roi_guards.1 5 2 2).2.1 (by norm_num)
  · exact (c10_margin_roi_guards.1 5 0 0).2.2.1 le_rfl
  · exact (c10_margin_roi_guards.1 5 2 2).2.2.2 (by norm_num)
  · exact c10_margin_roi_guards.2.1 5 0.1 2 riskLowSample
  · exact c10_margin_roi_guards.2.2.1 dbZero 1 1 1 none
      (transactionFound itemZeroValue mediaA chanS none) rfl hrev
  · exact c10_margin_roi_guards.2.2.2 dbZero 1 1 1 10 itemZeroValue mediaA chanS
      rfl rfl rfl (by norm_num) rfl

/-- C8: for a horizon of N ≥ 1 periods, period m of the forecast predicts
profit `avg-daily-profit × 30 × (1 + 0.05·m) + (pending-value × 0.3 ÷ N) ×
0.08`, the cumulative profit is the sum of these over periods 1..m, and with
no history and no pending inventory every predicted profit is zero. -/
theorem c8_forecast_formula :
    (∀ (history : List DailyStat) (pending : Option ℚ) (months m : ℕ),
      1 ≤ m → m ≤ months →
        (((generate_profit_forecast history pending months).monthly_forecast)[m - 1]?).map
            (fun e => (e.month, e.predicted_profit, e.cumulative_profit)) =
          some (m,
            avg_daily_profit history * 30 * (1 + 0.05 * (m : ℚ)) +
              qOrZero pending * 0.3 / (months : ℚ) * 0.08,
            ∑ j ∈ Finset.range m,
              (avg_daily_profit history * 30 * (1 + 0.05 * ((j + 1 : ℕ) : ℚ)) +
                qOrZero pending * 0.3 / (months : ℚ) * 0.08))) ∧
    (∀ (months : ℕ) (e : ForecastEntry),
      e ∈ (generate_profit_forecast [] none months).monthly_forecast →
        e.predicted_profit = 0) := by
  constructor
  · intro history pending months m h1 h2
    rw [generate_profit_forecast_monthly,
      forecastFrom_getElem _ _ _ _ months 1 0 (m - 1) (by omega)]
    have hm : 1 + (m - 1) = m := by omega
    have hm2 : m - 1 + 1 = m := by omega
    rw [hm, hm2]
    have hsh : ∀ j : ℕ,
        specMonthlyProfit (avg_daily_profit history) (qOrZero pending) months (1 + j) =
          specMonthlyProfit (avg_daily_profit history) (qOrZero pending) months (j + 1) :=
      fun j => by rw [Nat.add_comm 1 j]
    simp only [Option.map_some', hsh, zero_add]
    simp only [specMonthlyProfit]
  · intro months e h
    exact forecastFrom_zero 0 months months 1 0 e h

/-- Witness for C8: a one-day history with profit 30, pending value 1000 and
a two-period horizon, read at period 2. -/
theorem c8_forecast_formula_witness :
    (((generate_profit_forecast [⟨1, 100, 30⟩] (some 1000) 2).monthly_forecast)[2 - 1]?).map
        (fun e => (e.month, e.predicted_profit, e.cumulative_profit)) =
      some (2,
        avg_daily_profit [⟨1, 100, 30⟩] * 30 * (1 + 0.05 * ((2 : ℕ) : ℚ)) +
          qOrZero (some 1000) * 0.3 / ((2 : ℕ) : ℚ) * 0.08,
        ∑ j ∈ Finset.range 2,
          (avg_daily_profit [⟨1, 100, 30⟩] * 30 * (1 + 0.05 * ((j + 1 : ℕ) : ℚ)) +
            qOrZero (some 1000) * 0.3 / ((2 : ℕ) : ℚ) * 0.08)) := by
  exact c8_forecast_formula.1 [⟨1, 100, 30⟩] (some 1000) 2 2 (by norm_num) (by norm_num)

end MediaCRM
